import Mathlib

/-!
Shallow embedding of `crates/interledger-stream/src/congestion.rs`: the AIMD
`CongestionController` for interledger STREAM.

Modelling conventions:
* `u64` values are natural numbers; operations that in the source perform
  checked `u64` arithmetic (the `+=`, `-=`, `*` and `/` on amounts) are
  modelled in `Except Fault`, faulting exactly where the source faults
  (arithmetic overflow/underflow/division-by-zero panics); window growth and
  the float-to-integer casts saturate explicitly, mirroring the source's
  explicit saturation branches and Rust's saturating `as u64` cast.
* the `f64` field `decrease_factor` is modelled as an exact rational; the
  saturating cast of a (floored) `f64` quotient to `u64` is `ratToU64`.
* packet encoding/decoding lives in the external `interledger-packet` crate:
  a reject signal is modelled as its error code together with the result of
  parsing its payload as `MaxPacketAmountDetails` (`none` = parse failure).
* `tracing` debug/warn events are pure observability and are not modelled.
-/

/-- The largest `u64` value, `u64::max_value()` in the source. -/
def U64MAX : ℕ := 2 ^ 64 - 1

/-- Saturating conversion of a real (modelled rational) quantity to `u64`:
`clamp(floor q, 0, u64::MAX)`.  This is what Rust's `as u64` cast on an `f64`
does (truncation toward zero, saturating at both ends of the range); on the
already-floored values of the source, truncation and floor agree, and
negative values land at `0` (`Int.toNat`). -/
def ratToU64 (q : ℚ) : ℕ := min ⌊q⌋.toNat U64MAX

/-- The two-phase control state of the controller (enum `CongestionState`). -/
inductive CongestionState
| slowStart
| avoidCongestion
deriving DecidableEq

/-- Interledger error codes as far as this controller distinguishes them: the
two semantically significant codes, and all remaining codes collapsed into
`otherCode` indexed by a numeral. -/
inductive ErrorCode
| t04InsufficientLiquidity
| f08AmountTooLarge
| otherCode (code : ℕ)
deriving DecidableEq

/-- The payload of an F08 amount-too-large reject: two `u64` fields
(`interledger-packet`'s `MaxPacketAmountDetails`). -/
structure MaxPacketAmountDetails where
  amount_received : ℕ
  max_amount : ℕ
deriving DecidableEq

/-- A reject signal as consumed by the controller: its error code and the
result of parsing its byte payload with `MaxPacketAmountDetails::from_bytes`
(the codec is external to this crate; `none` models a payload on which
parsing fails, e.g. an empty or malformed one). -/
structure RejectSignal where
  code : ErrorCode
  data : Option MaxPacketAmountDetails
deriving DecidableEq

/-- Arithmetic faults of checked `u64` arithmetic (Rust panics). -/
inductive Fault
| underflow
| overflow
| divByZero
deriving DecidableEq

/-- The controller state record, field for field as in the source. -/
structure CongestionController where
  state : CongestionState
  increase_amount : ℕ
  decrease_factor : ℚ
  max_packet_amount : Option ℕ
  amount_in_flight : ℕ
  max_in_flight : ℕ
deriving DecidableEq

namespace CongestionController

/-- `CongestionController::new(start_amount, increase_amount, decrease_factor)`. -/
def new (start_amount increase_amount : ℕ) (decrease_factor : ℚ) :
    CongestionController where
  state := CongestionState.slowStart
  increase_amount := increase_amount
  decrease_factor := decrease_factor
  max_packet_amount := none
  amount_in_flight := 0
  max_in_flight := start_amount

/-- `get_max_packet_amount`: the learned cap, or `u64::MAX` when none. -/
def get_max_packet_amount (c : CongestionController) : ℕ :=
  c.max_packet_amount.getD U64MAX

/-- `get_amount_left_in_window`: `max_in_flight.saturating_sub(amount_in_flight)`
(truncated subtraction on ℕ is exactly saturating subtraction). -/
def get_amount_left_in_window (c : CongestionController) : ℕ :=
  c.max_in_flight - c.amount_in_flight

/-- `prepare(amount)`: books the amount.  The source adds only when
`amount > 0`; the checked `u64` addition faults on overflow. -/
def prepare (c : CongestionController) (amount : ℕ) :
    Except Fault CongestionController :=
  if 0 < amount then
    if c.amount_in_flight + amount ≤ U64MAX then
      Except.ok { c with amount_in_flight := c.amount_in_flight + amount }
    else Except.error Fault.overflow
  else Except.ok c

/-- `fulfill(prepare_amount)`: unbooks the amount (checked subtraction), then
grows the window — doubling in slow start, additive otherwise, both with the
source's explicit saturation tests against `u64::max_value()`. -/
def fulfill (c : CongestionController) (prepare_amount : ℕ) :
    Except Fault CongestionController :=
  if prepare_amount ≤ c.amount_in_flight then
    let c1 := { c with amount_in_flight := c.amount_in_flight - prepare_amount }
    if c1.state = CongestionState.slowStart then
      Except.ok { c1 with max_in_flight :=
        if c1.max_in_flight ≤ U64MAX / 2 then c1.max_in_flight * 2 else U64MAX }
    else
      Except.ok { c1 with max_in_flight :=
        if c1.max_in_flight ≤ U64MAX - c1.increase_amount then
          c1.max_in_flight + c1.increase_amount
        else U64MAX }
  else Except.error Fault.underflow

/-- `reject(prepare_amount, reject)`: unbooks the amount (checked
subtraction), then dispatches on the error code.  T04 moves to congestion
avoidance and divides the window by `decrease_factor` with a floor of 1; F08
with a parseable payload reconciles the per-packet cap through
`prepare_amount * max_amount / amount_received` (checked `u64` product and
quotient); F08 without one shrinks a known cap by `decrease_factor`; every
other code only unbooks. -/
def reject (c : CongestionController) (prepare_amount : ℕ) (r : RejectSignal) :
    Except Fault CongestionController :=
  if prepare_amount ≤ c.amount_in_flight then
    let c1 := { c with amount_in_flight := c.amount_in_flight - prepare_amount }
    match r.code with
    | ErrorCode.t04InsufficientLiquidity =>
      Except.ok { c1 with
        state := CongestionState.avoidCongestion,
        max_in_flight :=
          max (ratToU64 ((c1.max_in_flight : ℚ) / c1.decrease_factor)) 1 }
    | ErrorCode.f08AmountTooLarge =>
      match r.data with
      | some details =>
        if prepare_amount * details.max_amount ≤ U64MAX then
          if details.amount_received = 0 then Except.error Fault.divByZero
          else
            let new_max_packet_amount :=
              prepare_amount * details.max_amount / details.amount_received
            match c1.max_packet_amount with
            | some mpa =>
              Except.ok { c1 with
                max_packet_amount := some (min mpa new_max_packet_amount) }
            | none =>
              Except.ok { c1 with
                max_packet_amount := some new_max_packet_amount }
        else Except.error Fault.overflow
      | none =>
        match c1.max_packet_amount with
        | some mpa =>
          Except.ok { c1 with
            max_packet_amount :=
              some (ratToU64 ((mpa : ℚ) / c1.decrease_factor)) }
        | none => Except.ok c1
    | ErrorCode.otherCode _ => Except.ok c1
  else Except.error Fault.underflow

end CongestionController

/-- One driver call into the controller, for reasoning about call sequences. -/
inductive Op
| prepare (amount : ℕ)
| fulfill (prepare_amount : ℕ)
| reject (prepare_amount : ℕ) (r : RejectSignal)
deriving DecidableEq

/-- Apply one call. -/
def step (c : CongestionController) : Op → Except Fault CongestionController
  | Op.prepare a => c.prepare a
  | Op.fulfill a => c.fulfill a
  | Op.reject a r => c.reject a r

/-- Apply a sequence of calls, stopping at the first arithmetic fault. -/
def run (c : CongestionController) : List Op → Except Fault CongestionController
  | [] => Except.ok c
  | op :: ops =>
    match step c op with
    | Except.ok c1 => run c1 ops
    | Except.error e => Except.error e

namespace CongestionController

/-- Characterization of a successful `prepare` with a positive amount. -/
lemma prepare_ok_pos (c : CongestionController) (a : ℕ) (ha : 0 < a)
    (h : c.amount_in_flight + a ≤ U64MAX) :
    c.prepare a = Except.ok { c with amount_in_flight := c.amount_in_flight + a } := by
  simp [prepare, ha, h]

/-- `prepare 0` books nothing. -/
lemma prepare_zero (c : CongestionController) : c.prepare 0 = Except.ok c := by
  simp [prepare]

/-- Characterization of a successful `fulfill`. -/
lemma fulfill_ok (c : CongestionController) (pa : ℕ) (h : pa ≤ c.amount_in_flight) :
    c.fulfill pa = Except.ok { c with
      amount_in_flight := c.amount_in_flight - pa,
      max_in_flight :=
        if c.state = CongestionState.slowStart then
          (if c.max_in_flight ≤ U64MAX / 2 then c.max_in_flight * 2 else U64MAX)
        else
          (if c.max_in_flight ≤ U64MAX - c.increase_amount then
            c.max_in_flight + c.increase_amount
          else U64MAX) } := by
  by_cases hs : c.state = CongestionState.slowStart <;> simp [fulfill, h, hs]

/-- Characterization of a successful T04 (insufficient liquidity) reject. -/
lemma reject_t04_ok (c : CongestionController) (pa : ℕ) (r : RejectSignal)
    (hc : r.code = ErrorCode.t04InsufficientLiquidity) (h : pa ≤ c.amount_in_flight) :
    c.reject pa r = Except.ok { c with
      amount_in_flight := c.amount_in_flight - pa,
      state := CongestionState.avoidCongestion,
      max_in_flight :=
        max (ratToU64 ((c.max_in_flight : ℚ) / c.decrease_factor)) 1 } := by
  simp [reject, h, hc]

/-- Characterization of a successful F08 reject with a parsed payload. -/
lemma reject_f08_parsed_ok (c : CongestionController) (pa : ℕ)
    (d : MaxPacketAmountDetails) (h : pa ≤ c.amount_in_flight)
    (hov : pa * d.max_amount ≤ U64MAX) (har : d.amount_received ≠ 0) :
    c.reject pa ⟨ErrorCode.f08AmountTooLarge, some d⟩ = Except.ok { c with
      amount_in_flight := c.amount_in_flight - pa,
      max_packet_amount :=
        some (match c.max_packet_amount with
          | some mpa => min mpa (pa * d.max_amount / d.amount_received)
          | none => pa * d.max_amount / d.amount_received) } := by
  rcases hm : c.max_packet_amount with _ | mpa <;>
    simp [reject, h, hov, har, hm]

/-- Characterization of a successful F08 reject with an unparseable payload. -/
lemma reject_f08_unparsed_ok (c : CongestionController) (pa : ℕ)
    (h : pa ≤ c.amount_in_flight) :
    c.reject pa ⟨ErrorCode.f08AmountTooLarge, none⟩ = Except.ok { c with
      amount_in_flight := c.amount_in_flight - pa,
      max_packet_amount :=
        c.max_packet_amount.map
          (fun mpa => ratToU64 ((mpa : ℚ) / c.decrease_factor)) } := by
  rcases hm : c.max_packet_amount with _ | mpa <;>
    simp [reject, h, hm]

/-- Characterization of a successful reject with any other error code. -/
lemma reject_other_ok (c : CongestionController) (pa : ℕ) (r : RejectSignal)
    (n : ℕ) (hc : r.code = ErrorCode.otherCode n) (h : pa ≤ c.amount_in_flight) :
    c.reject pa r = Except.ok { c with
      amount_in_flight := c.amount_in_flight - pa } := by
  simp [reject, h, hc]


/-- Inversion for `prepare`: a successful call books exactly the amount and
touches nothing else. -/
lemma prepare_ok_inv (c : CongestionController) (a : ℕ) (c' : CongestionController)
    (h : c.prepare a = Except.ok c') :
    c'.amount_in_flight = c.amount_in_flight + a ∧
    c'.state = c.state ∧ c'.max_in_flight = c.max_in_flight ∧
    c'.max_packet_amount = c.max_packet_amount ∧
    c'.increase_amount = c.increase_amount ∧
    c'.decrease_factor = c.decrease_factor := by
  unfold prepare at h
  split at h
  · split at h
    · simp only [Except.ok.injEq] at h
      subst h
      simp
    · simp at h
  · simp only [Except.ok.injEq] at h
    subst h
    exact ⟨by omega, rfl, rfl, rfl, rfl, rfl⟩

/-- Inversion for `fulfill`: success means no underflow, the booked amount is
removed, the control state and cap are untouched, and the window grows by one
of the two saturating rules. -/
lemma fulfill_ok_inv (c : CongestionController) (pa : ℕ) (c' : CongestionController)
    (h : c.fulfill pa = Except.ok c') :
    pa ≤ c.amount_in_flight ∧
    c'.amount_in_flight = c.amount_in_flight - pa ∧
    c'.state = c.state ∧ c'.max_packet_amount = c.max_packet_amount ∧
    c'.increase_amount = c.increase_amount ∧
    c'.decrease_factor = c.decrease_factor ∧
    c'.max_in_flight =
      (if c.state = CongestionState.slowStart then
        (if c.max_in_flight ≤ U64MAX / 2 then c.max_in_flight * 2 else U64MAX)
      else
        (if c.max_in_flight ≤ U64MAX - c.increase_amount then
          c.max_in_flight + c.increase_amount
        else U64MAX)) := by
  by_cases hle : pa ≤ c.amount_in_flight
  · rw [fulfill_ok c pa hle] at h
    simp only [Except.ok.injEq] at h
    subst h
    simp [hle]
  · simp [fulfill, hle] at h

/-- Inversion for `reject`: success means no underflow; the booked amount is
removed; the step and factor parameters are untouched; and the remaining
fields change exactly as the error-code dispatch says. -/
lemma reject_ok_inv (c : CongestionController) (pa : ℕ) (r : RejectSignal)
    (c' : CongestionController) (h : c.reject pa r = Except.ok c') :
    pa ≤ c.amount_in_flight ∧
    c'.amount_in_flight = c.amount_in_flight - pa ∧
    c'.increase_amount = c.increase_amount ∧
    c'.decrease_factor = c.decrease_factor ∧
    ((r.code = ErrorCode.t04InsufficientLiquidity ∧
      c'.state = CongestionState.avoidCongestion ∧
      c'.max_packet_amount = c.max_packet_amount ∧
      c'.max_in_flight =
        max (ratToU64 ((c.max_in_flight : ℚ) / c.decrease_factor)) 1) ∨
     (c'.state = c.state ∧ c'.max_in_flight = c.max_in_flight ∧
      ((∃ d : MaxPacketAmountDetails,
          r = ⟨ErrorCode.f08AmountTooLarge, some d⟩ ∧ d.amount_received ≠ 0 ∧
          pa * d.max_amount ≤ U64MAX ∧
          c'.max_packet_amount =
            some (match c.max_packet_amount with
              | some mpa => min mpa (pa * d.max_amount / d.amount_received)
              | none => pa * d.max_amount / d.amount_received)) ∨
       (r = ⟨ErrorCode.f08AmountTooLarge, none⟩ ∧
        c'.max_packet_amount =
          c.max_packet_amount.map
            (fun mpa => ratToU64 ((mpa : ℚ) / c.decrease_factor))) ∨
       ((∃ n, r.code = ErrorCode.otherCode n) ∧
        c'.max_packet_amount = c.max_packet_amount)))) := by
  by_cases hle : pa ≤ c.amount_in_flight
  · rcases r with ⟨code, data⟩
    cases code with
    | t04InsufficientLiquidity =>
      rw [reject_t04_ok c pa _ rfl hle] at h
      simp only [Except.ok.injEq] at h
      subst h
      simp [hle]
    | f08AmountTooLarge =>
      cases data with
      | none =>
        rw [reject_f08_unparsed_ok c pa hle] at h
        simp only [Except.ok.injEq] at h
        subst h
        simp [hle]
      | some d =>
        by_cases hov : pa * d.max_amount ≤ U64MAX
        · by_cases har : d.amount_received = 0
          · simp [reject, hle, hov, har] at h
          · rw [reject_f08_parsed_ok c pa d hle hov har] at h
            simp only [Except.ok.injEq] at h
            subst h
            refine ⟨hle, rfl, rfl, rfl, Or.inr ⟨rfl, rfl, Or.inl ⟨d, rfl, har, hov, rfl⟩⟩⟩
        · simp [reject, hle, hov] at h
    | otherCode n =>
      rw [reject_other_ok c pa _ n rfl hle] at h
      simp only [Except.ok.injEq] at h
      subst h
      exact ⟨hle, rfl, rfl, rfl, Or.inr ⟨rfl, rfl, Or.inr (Or.inr ⟨⟨n, rfl⟩, rfl⟩)⟩⟩
  · simp [reject, hle] at h

end CongestionController



/-- Dividing a natural number by a factor of at least 1 and saturating-casting
back never increases it. -/
lemma ratToU64_div_le (v : ℕ) (df : ℚ) (hdf : 1 ≤ df) :
    ratToU64 ((v : ℚ) / df) ≤ v := by
  have h1 : ((v : ℚ) / df) ≤ (v : ℚ) := div_le_self (by positivity) hdf
  have h2 : ⌊((v : ℚ) / df)⌋ ≤ (v : ℤ) := by
    calc ⌊((v : ℚ) / df)⌋ ≤ ⌊(v : ℚ)⌋ := Int.floor_le_floor h1
    _ = (v : ℤ) := Int.floor_natCast v
  have h3 : ⌊((v : ℚ) / df)⌋.toNat ≤ v := by omega
  exact le_trans (min_le_left _ _) h3

/-- Any successful T04 reject leaves a window of at least 1. -/
lemma reject_t04_window_pos (c : CongestionController) (pa : ℕ) (r : RejectSignal)
    (c' : CongestionController) (hc : r.code = ErrorCode.t04InsufficientLiquidity)
    (h : c.reject pa r = Except.ok c') : 1 ≤ c'.max_in_flight := by
  rcases CongestionController.reject_ok_inv c pa r c' h with ⟨-, -, -, -, hcase⟩
  rcases hcase with ⟨-, -, -, hm⟩ | ⟨-, -, hsub⟩
  · rw [hm]
    exact le_max_right _ _
  · rcases hsub with ⟨d, hr, -⟩ | ⟨hr, -⟩ | ⟨⟨n, hn⟩, -⟩
    · rw [hr] at hc
      simp at hc
    · rw [hr] at hc
      simp at hc
    · rw [hn] at hc
      simp at hc

/-- A step either keeps the control state or lands in `AvoidCongestion`, and
it changes the state only on a T04 reject. -/
lemma step_ok_state (c : CongestionController) (op : Op) (c' : CongestionController)
    (h : step c op = Except.ok c') :
    c'.state = c.state ∨
    (c'.state = CongestionState.avoidCongestion ∧
     ∃ pa r, op = Op.reject pa r ∧
       r.code = ErrorCode.t04InsufficientLiquidity) := by
  cases op with
  | prepare a => exact Or.inl (CongestionController.prepare_ok_inv c a c' h).2.1
  | fulfill a => exact Or.inl (CongestionController.fulfill_ok_inv c a c' h).2.2.1
  | reject a r =>
    rcases CongestionController.reject_ok_inv c a r c' h with ⟨-, -, -, -, hcase⟩
    rcases hcase with ⟨hc, hs, -, -⟩ | ⟨hs, -, -⟩
    · exact Or.inr ⟨hs, a, r, rfl, hc⟩
    · exact Or.inl hs

/-- A step never shrinks a positive window to zero. -/
lemma step_ok_window_pos (c : CongestionController) (op : Op) (c' : CongestionController)
    (h : step c op = Except.ok c') (h1 : 1 ≤ c.max_in_flight) :
    1 ≤ c'.max_in_flight := by
  have hM : (1 : ℕ) ≤ U64MAX := by norm_num [U64MAX]
  cases op with
  | prepare a =>
    rw [(CongestionController.prepare_ok_inv c a c' h).2.2.1]
    exact h1
  | fulfill a =>
    rw [(CongestionController.fulfill_ok_inv c a c' h).2.2.2.2.2.2]
    split
    · split <;> omega
    · split <;> omega
  | reject a r =>
    rcases CongestionController.reject_ok_inv c a r c' h with ⟨-, -, -, -, hcase⟩
    rcases hcase with ⟨-, -, -, hm⟩ | ⟨-, hm, -⟩
    · rw [hm]
      exact le_max_right _ _
    · rw [hm]
      exact h1

/-- With a decrease factor of at least 1, a step never increases a known
per-packet cap (and never forgets it). -/
lemma step_ok_cap_mono (c : CongestionController) (op : Op) (c' : CongestionController)
    (v : ℕ) (hdf : 1 ≤ c.decrease_factor) (h : step c op = Except.ok c')
    (hv : c.max_packet_amount = some v) :
    ∃ v', c'.max_packet_amount = some v' ∧ v' ≤ v := by
  cases op with
  | prepare a =>
    exact ⟨v, (CongestionController.prepare_ok_inv c a c' h).2.2.2.1.trans hv, le_refl v⟩
  | fulfill a =>
    exact ⟨v, (CongestionController.fulfill_ok_inv c a c' h).2.2.2.1.trans hv, le_refl v⟩
  | reject a r =>
    rcases CongestionController.reject_ok_inv c a r c' h with ⟨-, -, -, -, hcase⟩
    rcases hcase with ⟨-, -, hm, -⟩ | ⟨-, -, hsub⟩
    · exact ⟨v, hm.trans hv, le_refl v⟩
    · rcases hsub with ⟨d, -, -, -, hm⟩ | ⟨-, hm⟩ | ⟨-, hm⟩
      · rw [hv] at hm
        exact ⟨_, hm, min_le_left _ _⟩
      · rw [hv] at hm
        exact ⟨_, hm, ratToU64_div_le v c.decrease_factor hdf⟩
      · exact ⟨v, hm.trans hv, le_refl v⟩

/-- Claim C2: on every successful `fulfill`, the window grows by the phase
rule — doubling in `SlowStart`, adding `increase_amount` in
`AvoidCongestion` — in both cases saturating at the maximum `u64` value
instead of wrapping. -/
theorem C2_fulfill_saturating_growth (c : CongestionController) (pa : ℕ)
    (h : pa ≤ c.amount_in_flight) (hm : c.max_in_flight ≤ U64MAX)
    (hi : c.increase_amount ≤ U64MAX) :
    ∃ c', c.fulfill pa = Except.ok c' ∧
      c'.max_in_flight =
        (if c.state = CongestionState.slowStart then
          min (2 * c.max_in_flight) U64MAX
        else
          min (c.max_in_flight + c.increase_amount) U64MAX) := by
  refine ⟨_, CongestionController.fulfill_ok c pa h, ?_⟩
  have hM : U64MAX = 18446744073709551615 := by norm_num [U64MAX]
  by_cases hs : c.state = CongestionState.slowStart <;>
    simp only [hs, if_true, if_false, reduceIte] <;>
    rw [hM] at hm hi ⊢ <;>
    split <;>
    omega

/-- Witness for C2 at a fresh controller `new(1000, 1000, 2)` and a resolved
amount of 0: the window doubles to `min(2000, u64::MAX)`. -/
theorem C2_fulfill_saturating_growth_witness :
    ∃ c', (CongestionController.new 1000 1000 2).fulfill 0 = Except.ok c' ∧
      c'.max_in_flight =
        (if (CongestionController.new 1000 1000 2).state = CongestionState.slowStart then
          min (2 * (CongestionController.new 1000 1000 2).max_in_flight) U64MAX
        else
          min ((CongestionController.new 1000 1000 2).max_in_flight +
            (CongestionController.new 1000 1000 2).increase_amount) U64MAX) :=
  C2_fulfill_saturating_growth (CongestionController.new 1000 1000 2) 0
    (Nat.zero_le _) (by norm_num [CongestionController.new, U64MAX])
    (by norm_num [CongestionController.new, U64MAX])

/-- Claim C3: the control state never leaves `AvoidCongestion` once entered —
each successful step preserves membership in `AvoidCongestion` (and so does
every successful call sequence), and the only step that can change the state
at all is a reject carrying the insufficient-liquidity code. -/
theorem C3_state_one_way :
    (∀ (c : CongestionController) (op : Op) (c' : CongestionController),
      step c op = Except.ok c' →
      c.state = CongestionState.avoidCongestion →
      c'.state = CongestionState.avoidCongestion) ∧
    (∀ (c : CongestionController) (op : Op) (c' : CongestionController),
      step c op = Except.ok c' → c'.state ≠ c.state →
      ∃ pa r, op = Op.reject pa r ∧
        r.code = ErrorCode.t04InsufficientLiquidity) ∧
    (∀ (l : List Op) (c c' : CongestionController),
      run c l = Except.ok c' →
      c.state = CongestionState.avoidCongestion →
      c'.state = CongestionState.avoidCongestion) := by
  have hstep : ∀ (c : CongestionController) (op : Op) (c' : CongestionController),
      step c op = Except.ok c' →
      c.state = CongestionState.avoidCongestion →
      c'.state = CongestionState.avoidCongestion := by
    intro c op c' h hc
    rcases step_ok_state c op c' h with hs | ⟨hs, -⟩
    · rw [hs]
      exact hc
    · exact hs
  refine ⟨hstep, ?_, ?_⟩
  · intro c op c' h hne
    rcases step_ok_state c op c' h with hs | ⟨-, hex⟩
    · exact absurd hs hne
    · exact hex
  · intro l
    induction l with
    | nil =>
      intro c c' h hc
      simp only [run, Except.ok.injEq] at h
      rw [← h]
      exact hc
    | cons op ops ih =>
      intro c c' h hc
      rw [run] at h
      cases hsc : step c op with
      | ok c1 =>
        rw [hsc] at h
        exact ih c1 c' h (hstep c op c1 hsc hc)
      | error e =>
        rw [hsc] at h
        simp at h

/-- Witness for C3: a fulfill from `AvoidCongestion` stays there; a concrete
T04 reject is the shape the second conjunct demands; the empty sequence
preserves `AvoidCongestion`. -/
theorem C3_state_one_way_witness :
    ((⟨CongestionState.avoidCongestion, 1000, 2, none, 0, 1000⟩ :
        CongestionController).state = CongestionState.avoidCongestion) ∧
    (∃ pa r,
      Op.reject 0 (⟨ErrorCode.t04InsufficientLiquidity, none⟩ : RejectSignal) =
        Op.reject pa r ∧
      r.code = ErrorCode.t04InsufficientLiquidity) ∧
    ((⟨CongestionState.avoidCongestion, 1000, 2, none, 0, 1000⟩ :
        CongestionController).state = CongestionState.avoidCongestion) := by
  have hstep : step (⟨CongestionState.slowStart, 0, 1, none, 0, 1⟩ :
      CongestionController) (Op.reject 0 ⟨ErrorCode.t04InsufficientLiquidity, none⟩) =
      Except.ok (⟨CongestionState.avoidCongestion, 0, 1, none, 0, 1⟩ :
        CongestionController) := by
    simp only [step]
    rw [CongestionController.reject_t04_ok _ _ _ rfl (by decide)]
    simp only [Except.ok.injEq, CongestionController.mk.injEq]
    norm_num [ratToU64, U64MAX]
  refine ⟨?_, ?_, ?_⟩
  · exact C3_state_one_way.1 _ (Op.prepare 0) _ rfl rfl
  · exact C3_state_one_way.2.1 _ _ _ hstep (by decide)
  · exact C3_state_one_way.2.2 [] _ _ rfl rfl

/-- Claim C6 counterexample: the window-positivity invariant does not hold
for every choice of construction parameters — `new(0, 0, 2.0)` starts with
`max_in_flight = 0`. -/
theorem C6_counterexample :
    ¬ 1 ≤ (CongestionController.new 0 0 2).max_in_flight := by
  decide

/-- Claim C6 (amended): `max_in_flight ≥ 1` holds immediately after
`new(start_amount, increase_amount, decrease_factor)` whenever
`start_amount ≥ 1` (not for every choice of parameters: `start_amount = 0`
starts the window at 0), and every successful `prepare`/`fulfill`/`reject`
preserves `max_in_flight ≥ 1`. -/
theorem C6_window_ge_one :
    (∀ (sa ia : ℕ) (df : ℚ), 1 ≤ sa →
      1 ≤ (CongestionController.new sa ia df).max_in_flight) ∧
    (∀ (c : CongestionController) (op : Op) (c' : CongestionController),
      step c op = Except.ok c' → 1 ≤ c.max_in_flight →
      1 ≤ c'.max_in_flight) :=
  ⟨fun _ _ _ h => h, step_ok_window_pos⟩

/-- Witness for C6 (amended): `new(1, 0, 2)` has a positive window, and a
`prepare 0` step from it keeps the window positive. -/
theorem C6_window_ge_one_witness :
    1 ≤ (CongestionController.new 1 0 2).max_in_flight ∧
    1 ≤ (CongestionController.new 1 0 2).max_in_flight :=
  ⟨C6_window_ge_one.1 1 0 2 (le_refl 1),
   C6_window_ge_one.2 (CongestionController.new 1 0 2) (Op.prepare 0)
     (CongestionController.new 1 0 2) rfl (le_refl 1)⟩

/-- Claim C8: a successful reject whose code is neither T04
insufficient-liquidity nor F08 amount-too-large removes exactly the resolved
amount from `amount_in_flight` and leaves `state`, `max_in_flight`,
`max_packet_amount`, `increase_amount` and `decrease_factor` unchanged. -/
theorem C8_other_code_frame (c : CongestionController) (pa n : ℕ)
    (r : RejectSignal) (hc : r.code = ErrorCode.otherCode n)
    (h : pa ≤ c.amount_in_flight) :
    ∃ c', c.reject pa r = Except.ok c' ∧
      c'.amount_in_flight + pa = c.amount_in_flight ∧
      c'.state = c.state ∧
      c'.max_in_flight = c.max_in_flight ∧
      c'.max_packet_amount = c.max_packet_amount ∧
      c'.increase_amount = c.increase_amount ∧
      c'.decrease_factor = c.decrease_factor := by
  refine ⟨_, CongestionController.reject_other_ok c pa r n hc h, ?_⟩
  refine ⟨?_, rfl, rfl, rfl, rfl, rfl⟩
  simp only []
  omega

/-- Witness for C8: an unrelated code (here a stand-in for e.g. F99) on a
controller with 5 in flight, resolving 3 of it. -/
theorem C8_other_code_frame_witness :
    ∃ c', (⟨CongestionState.slowStart, 1, 2, none, 5, 10⟩ :
        CongestionController).reject 3 ⟨ErrorCode.otherCode 99, none⟩ =
        Except.ok c' ∧
      c'.amount_in_flight + 3 = (⟨CongestionState.slowStart, 1, 2, none, 5, 10⟩ :
        CongestionController).amount_in_flight ∧
      c'.state = CongestionState.slowStart ∧
      c'.max_in_flight = 10 ∧
      c'.max_packet_amount = none ∧
      c'.increase_amount = 1 ∧
      c'.decrease_factor = 2 :=
  C8_other_code_frame _ 3 99 _ rfl (by decide)

/-- Claim C10: an F08 amount-too-large reject whose payload parses with
`amount_received = 0` hits the unguarded division and faults with a division
by zero instead of updating `max_packet_amount` (stated past the two checked
operations that precede the division: no booking underflow and no product
overflow). -/
theorem C10_amount_received_zero_faults (c : CongestionController) (pa ma : ℕ)
    (h : pa ≤ c.amount_in_flight) (hov : pa * ma ≤ U64MAX) :
    c.reject pa ⟨ErrorCode.f08AmountTooLarge, some ⟨0, ma⟩⟩ =
      Except.error Fault.divByZero := by
  simp [CongestionController.reject, h, hov]

/-- Witness for C10: resolving 1 of 1 in flight against a parsed payload
reporting `amount_received = 0`, `max_amount = 5`. -/
theorem C10_amount_received_zero_faults_witness :
    (⟨CongestionState.slowStart, 1, 2, none, 1, 10⟩ :
        CongestionController).reject 1 ⟨ErrorCode.f08AmountTooLarge, some ⟨0, 5⟩⟩ =
      Except.error Fault.divByZero :=
  C10_amount_received_zero_faults _ 1 5 (by decide) (by norm_num [U64MAX])

/-- Claim C5: the three F08 amount-too-large outcomes.  With a parsed payload
the new cap is the minimum of the previous cap (taken as `u64::MAX`, i.e. "no
cap", when absent) and the truncating quotient
`prepare_amount * max_amount / amount_received`; with an unparseable payload
a known cap shrinks to its truncated, range-clamped quotient by
`decrease_factor`, and an absent cap stays absent. -/
theorem C5_f08_cap_update :
    (∀ (c : CongestionController) (pa : ℕ) (d : MaxPacketAmountDetails),
      pa ≤ c.amount_in_flight → d.amount_received ≠ 0 →
      pa * d.max_amount ≤ U64MAX →
      ∃ c', c.reject pa ⟨ErrorCode.f08AmountTooLarge, some d⟩ = Except.ok c' ∧
        c'.max_packet_amount =
          some (min c.get_max_packet_amount
            (pa * d.max_amount / d.amount_received))) ∧
    (∀ (c : CongestionController) (pa v : ℕ),
      pa ≤ c.amount_in_flight → c.max_packet_amount = some v →
      ∃ c', c.reject pa ⟨ErrorCode.f08AmountTooLarge, none⟩ = Except.ok c' ∧
        c'.max_packet_amount =
          some (min ⌊((v : ℚ) / c.decrease_factor)⌋.toNat U64MAX)) ∧
    (∀ (c : CongestionController) (pa : ℕ),
      pa ≤ c.amount_in_flight → c.max_packet_amount = none →
      ∃ c', c.reject pa ⟨ErrorCode.f08AmountTooLarge, none⟩ = Except.ok c' ∧
        c'.max_packet_amount = none) := by
  refine ⟨?_, ?_, ?_⟩
  · intro c pa d h har hov
    refine ⟨_, CongestionController.reject_f08_parsed_ok c pa d h hov har, ?_⟩
    rcases hm : c.max_packet_amount with _ | mpa
    · simp only [hm, CongestionController.get_max_packet_amount, Option.getD_none]
      have hle : pa * d.max_amount / d.amount_received ≤ U64MAX :=
        le_trans (Nat.div_le_self _ _) hov
      rw [min_eq_right hle]
    · simp [hm, CongestionController.get_max_packet_amount]
  · intro c pa v h hv
    refine ⟨_, CongestionController.reject_f08_unparsed_ok c pa h, ?_⟩
    simp [hv, ratToU64]
  · intro c pa h hm
    refine ⟨_, CongestionController.reject_f08_unparsed_ok c pa h, ?_⟩
    simp [hm]

/-- Witness for C5: the spec's worked example (`prepare_amount = 1000`,
details `{amount_received: 100, max_amount: 10}`, no prior cap), an
unparseable F08 on a known cap of 100 with factor 2, and an unparseable F08
with no known cap. -/
theorem C5_f08_cap_update_witness :
    (∃ c', (⟨CongestionState.slowStart, 1000, 2, none, 1000, 1000⟩ :
        CongestionController).reject 1000
          ⟨ErrorCode.f08AmountTooLarge, some ⟨100, 10⟩⟩ = Except.ok c' ∧
      c'.max_packet_amount =
        some (min (⟨CongestionState.slowStart, 1000, 2, none, 1000, 1000⟩ :
          CongestionController).get_max_packet_amount (1000 * 10 / 100))) ∧
    (∃ c', (⟨CongestionState.slowStart, 1000, 2, some 100, 0, 1000⟩ :
        CongestionController).reject 0
          ⟨ErrorCode.f08AmountTooLarge, none⟩ = Except.ok c' ∧
      c'.max_packet_amount =
        some (min ⌊((100 : ℕ) : ℚ) / ((2 : ℚ))⌋.toNat U64MAX)) ∧
    (∃ c', (⟨CongestionState.slowStart, 1000, 2, none, 0, 1000⟩ :
        CongestionController).reject 0
          ⟨ErrorCode.f08AmountTooLarge, none⟩ = Except.ok c' ∧
      c'.max_packet_amount = none) := by
  refine ⟨?_, ?_, ?_⟩
  · exact C5_f08_cap_update.1 _ 1000 ⟨100, 10⟩ (by decide) (by decide)
      (by norm_num [U64MAX])
  · exact C5_f08_cap_update.2.1 _ 0 100 (by decide) rfl
  · exact C5_f08_cap_update.2.2 _ 0 (by decide) rfl

/-- Claim C7 counterexample: after `prepare(x)` the amount left in the window
does not always drop by exactly `x` — preparing 10 against a window of 5
takes the saturating answer from 5 to 0, a drop of 5, not 10. -/
theorem C7_counterexample :
    (CongestionController.new 5 1 2).get_amount_left_in_window = 5 ∧
    (CongestionController.new 5 1 2).prepare 10 =
      Except.ok ⟨CongestionState.slowStart, 1, 2, none, 10, 5⟩ ∧
    (⟨CongestionState.slowStart, 1, 2, none, 10, 5⟩ :
      CongestionController).get_amount_left_in_window = 0 ∧
    (5 : ℕ) ≠ 0 + 10 := by
  refine ⟨rfl, ?_, rfl, by decide⟩
  rw [CongestionController.prepare_ok_pos _ 10 (by decide)
    (by norm_num [CongestionController.new, U64MAX])]
  rfl

/-- Claim C7 (amended): `get_amount_left_in_window` is the saturating
difference `max(max_in_flight − amount_in_flight, 0)`; after a successful
`prepare(x)` it equals its old value saturating-minus `x` — so it drops by
exactly `x` whenever `x` was within the window, but only to 0 otherwise —
and a successful `fulfill(x)` or `reject(x, _)` removes exactly `x` from the
`amount_in_flight` component regardless of window changes. -/
theorem C7_left_in_window_accounting :
    (∀ c : CongestionController,
      (c.get_amount_left_in_window : ℤ) =
        max ((c.max_in_flight : ℤ) - (c.amount_in_flight : ℤ)) 0) ∧
    (∀ (c : CongestionController) (x : ℕ) (c' : CongestionController),
      c.prepare x = Except.ok c' →
      c'.get_amount_left_in_window = c.get_amount_left_in_window - x) ∧
    (∀ (c : CongestionController) (x : ℕ) (c' : CongestionController),
      c.prepare x = Except.ok c' → x ≤ c.get_amount_left_in_window →
      c.get_amount_left_in_window = c'.get_amount_left_in_window + x) ∧
    (∀ (c : CongestionController) (x : ℕ) (c' : CongestionController),
      c.fulfill x = Except.ok c' →
      c.amount_in_flight = c'.amount_in_flight + x) ∧
    (∀ (c : CongestionController) (x : ℕ) (r : RejectSignal)
      (c' : CongestionController),
      c.reject x r = Except.ok c' →
      c.amount_in_flight = c'.amount_in_flight + x) := by
  refine ⟨?_, ?_, ?_, ?_, ?_⟩
  · intro c
    simp only [CongestionController.get_amount_left_in_window]
    omega
  · intro c x c' h
    rcases CongestionController.prepare_ok_inv c x c' h with ⟨ha, -, hm, -⟩
    simp only [CongestionController.get_amount_left_in_window, ha, hm]
    omega
  · intro c x c' h hx
    rcases CongestionController.prepare_ok_inv c x c' h with ⟨ha, -, hm, -⟩
    simp only [CongestionController.get_amount_left_in_window] at hx ⊢
    omega
  · intro c x c' h
    rcases CongestionController.fulfill_ok_inv c x c' h with ⟨hle, ha, -⟩
    omega
  · intro c x r c' h
    rcases CongestionController.reject_ok_inv c x r c' h with ⟨hle, ha, -⟩
    omega

/-- Witness for C7 (amended), on a controller with 3 of 10 in flight:
the derived query, a `prepare 2`, the same `prepare 2` within the window,
a `fulfill 1`, and a `reject 1` with an unrelated code. -/
theorem C7_left_in_window_accounting_witness :
    ((⟨CongestionState.slowStart, 1, 2, none, 3, 10⟩ :
        CongestionController).get_amount_left_in_window : ℤ) =
      max ((10 : ℤ) - (3 : ℤ)) 0 ∧
    ((⟨CongestionState.slowStart, 1, 2, none, 5, 10⟩ :
        CongestionController).get_amount_left_in_window =
      (⟨CongestionState.slowStart, 1, 2, none, 3, 10⟩ :
        CongestionController).get_amount_left_in_window - 2) ∧
    ((⟨CongestionState.slowStart, 1, 2, none, 3, 10⟩ :
        CongestionController).get_amount_left_in_window =
      (⟨CongestionState.slowStart, 1, 2, none, 5, 10⟩ :
        CongestionController).get_amount_left_in_window + 2) ∧
    ((⟨CongestionState.slowStart, 1, 2, none, 3, 10⟩ :
        CongestionController).amount_in_flight =
      (⟨CongestionState.slowStart, 1, 2, none, 2, 20⟩ :
        CongestionController).amount_in_flight + 1) ∧
    ((⟨CongestionState.slowStart, 1, 2, none, 3, 10⟩ :
        CongestionController).amount_in_flight =
      (⟨CongestionState.slowStart, 1, 2, none, 2, 10⟩ :
        CongestionController).amount_in_flight + 1) := by
  have hprep : (⟨CongestionState.slowStart, 1, 2, none, 3, 10⟩ :
      CongestionController).prepare 2 =
      Except.ok (⟨CongestionState.slowStart, 1, 2, none, 5, 10⟩ :
        CongestionController) := by
    rw [CongestionController.prepare_ok_pos _ 2 (by decide) (by norm_num [U64MAX])]
  have hful : (⟨CongestionState.slowStart, 1, 2, none, 3, 10⟩ :
      CongestionController).fulfill 1 =
      Except.ok (⟨CongestionState.slowStart, 1, 2, none, 2, 20⟩ :
        CongestionController) := by
    rw [CongestionController.fulfill_ok _ 1 (by decide)]
    norm_num [U64MAX]
  have hrej : (⟨CongestionState.slowStart, 1, 2, none, 3, 10⟩ :
      CongestionController).reject 1 ⟨ErrorCode.otherCode 99, none⟩ =
      Except.ok (⟨CongestionState.slowStart, 1, 2, none, 2, 10⟩ :
        CongestionController) := by
    rw [CongestionController.reject_other_ok _ 1 _ 99 rfl (by decide)]
    rfl
  exact ⟨C7_left_in_window_accounting.1 _,
    C7_left_in_window_accounting.2.1 _ 2 _ hprep,
    C7_left_in_window_accounting.2.2.1 _ 2 _ hprep (by decide),
    C7_left_in_window_accounting.2.2.2.1 _ 1 _ hful,
    C7_left_in_window_accounting.2.2.2.2 _ 1 _ _ hrej⟩

/-- Claim C1 counterexample: with `decrease_factor = 1/2` and the window at
`u64::MAX`, the claimed update `max(floor(max_in_flight / decrease_factor), 1)`
would be `2^65 − 2`, but the saturating float-to-`u64` cast leaves the window
at `u64::MAX = 2^64 − 1`. -/
theorem C1_counterexample :
    CongestionController.reject
        ⟨CongestionState.avoidCongestion, 0, 1 / 2, none, 0, U64MAX⟩ 0
        ⟨ErrorCode.t04InsufficientLiquidity, none⟩ =
      Except.ok ⟨CongestionState.avoidCongestion, 0, 1 / 2, none, 0, U64MAX⟩ ∧
    max ⌊((U64MAX : ℚ) / (1 / 2 : ℚ))⌋.toNat 1 = 2 ^ 65 - 2 ∧
    U64MAX ≠ 2 ^ 65 - 2 := by
  have hfl : ⌊((U64MAX : ℚ) / (1 / 2 : ℚ))⌋ = 2 ^ 65 - 2 := by
    norm_num [U64MAX]
  refine ⟨?_, ?_, by norm_num [U64MAX]⟩
  · rw [CongestionController.reject_t04_ok _ _ _ rfl (le_refl 0)]
    simp only [Except.ok.injEq, CongestionController.mk.injEq, ratToU64, hfl]
    norm_num [U64MAX]
  · rw [hfl]
    decide

/-- Claim C1 (amended): every successful insufficient-liquidity reject moves
the state to `AvoidCongestion` (idempotently) and sets `max_in_flight` to
`max(floor(max_in_flight / decrease_factor), 1)` clamped to the `u64` range
(the clamp is forced by the saturating float-to-`u64` cast and only binds
when `decrease_factor < 1`); consequently the window is at least 1 after any
nonempty successful sequence of such rejects. -/
theorem C1_t04_decrease :
    (∀ (c : CongestionController) (pa : ℕ) (r : RejectSignal),
      r.code = ErrorCode.t04InsufficientLiquidity → pa ≤ c.amount_in_flight →
      ∃ c', c.reject pa r = Except.ok c' ∧
        c'.state = CongestionState.avoidCongestion ∧
        c'.max_in_flight =
          min (max ⌊((c.max_in_flight : ℚ) / c.decrease_factor)⌋.toNat 1)
            U64MAX ∧
        1 ≤ c'.max_in_flight) ∧
    (∀ (l : List Op) (c : CongestionController), l ≠ [] →
      (∀ op ∈ l, ∃ pa r, op = Op.reject pa r ∧
        r.code = ErrorCode.t04InsufficientLiquidity) →
      ∀ c', run c l = Except.ok c' → 1 ≤ c'.max_in_flight) := by
  have hM : 1 ≤ U64MAX := by norm_num [U64MAX]
  constructor
  · intro c pa r hc h
    refine ⟨_, CongestionController.reject_t04_ok c pa r hc h, rfl, ?_, ?_⟩
    · simp only [ratToU64]
      omega
    · exact le_max_right _ _
  · intro l
    induction l with
    | nil => intro c hne _ _ _; exact absurd rfl hne
    | cons op ops ih =>
      intro c _ hall c' hrun
      rw [run] at hrun
      cases hsc : step c op with
      | error e =>
        rw [hsc] at hrun
        simp at hrun
      | ok c1 =>
        rw [hsc] at hrun
        rcases hall op (List.mem_cons_self op ops) with ⟨pa, r, hop, hcr⟩
        subst hop
        simp only [step] at hsc
        cases ops with
        | nil =>
          simp only [run, Except.ok.injEq] at hrun
          rw [← hrun]
          exact reject_t04_window_pos c pa r c1 hcr hsc
        | cons op2 ops2 =>
          exact ih c1 (by simp) (fun o ho => hall o (List.mem_cons_of_mem _ ho))
            c' hrun

/-- Witness for C1 (amended): a T04 reject on a fresh `new(1000, 1000, 2)`
(first conjunct), and the singleton sequence of that same reject (second
conjunct) landing on a window of 500 ≥ 1. -/
theorem C1_t04_decrease_witness :
    (∃ c', (CongestionController.new 1000 1000 2).reject 0
        ⟨ErrorCode.t04InsufficientLiquidity, none⟩ = Except.ok c' ∧
      c'.state = CongestionState.avoidCongestion ∧
      c'.max_in_flight =
        min (max ⌊(((CongestionController.new 1000 1000 2).max_in_flight : ℚ) /
          (CongestionController.new 1000 1000 2).decrease_factor)⌋.toNat 1)
          U64MAX ∧
      1 ≤ c'.max_in_flight) ∧
    1 ≤ (⟨CongestionState.avoidCongestion, 1000, 2, none, 0, 500⟩ :
      CongestionController).max_in_flight := by
  have hstep : run (CongestionController.new 1000 1000 2)
      [Op.reject 0 ⟨ErrorCode.t04InsufficientLiquidity, none⟩] =
      Except.ok (⟨CongestionState.avoidCongestion, 1000, 2, none, 0, 500⟩ :
        CongestionController) := by
    show (match step (CongestionController.new 1000 1000 2)
        (Op.reject 0 ⟨ErrorCode.t04InsufficientLiquidity, none⟩) with
      | Except.ok c1 => run c1 []
      | Except.error e => Except.error e) = _
    rw [show step (CongestionController.new 1000 1000 2)
        (Op.reject 0 ⟨ErrorCode.t04InsufficientLiquidity, none⟩) =
        Except.ok (⟨CongestionState.avoidCongestion, 1000, 2, none, 0, 500⟩ :
          CongestionController) from ?_]
    · rfl
    · simp only [step]
      rw [CongestionController.reject_t04_ok _ _ _ rfl (le_refl 0)]
      simp only [Except.ok.injEq, CongestionController.mk.injEq, ratToU64]
      norm_num [CongestionController.new, U64MAX]
      decide
  constructor
  · exact C1_t04_decrease.1 (CongestionController.new 1000 1000 2) 0
      ⟨ErrorCode.t04InsufficientLiquidity, none⟩ rfl (le_refl 0)
  · exact C1_t04_decrease.2
      [Op.reject 0 ⟨ErrorCode.t04InsufficientLiquidity, none⟩]
      (CongestionController.new 1000 1000 2) (by simp)
      (fun o ho => by
        simp only [List.mem_singleton] at ho
        exact ⟨0, ⟨ErrorCode.t04InsufficientLiquidity, none⟩, ho, rfl⟩)
      _ hstep

/-- Claim C4 counterexample: with `decrease_factor = 1/2`, an F08 reject with
an unparseable payload *raises* a known cap of 10 to 20 — the cap is not
monotone for every operation and every state. -/
theorem C4_counterexample :
    CongestionController.reject
        ⟨CongestionState.slowStart, 0, 1 / 2, some 10, 0, 1000⟩ 0
        ⟨ErrorCode.f08AmountTooLarge, none⟩ =
      Except.ok ⟨CongestionState.slowStart, 0, 1 / 2, some 20, 0, 1000⟩ ∧
    ¬ (20 : ℕ) ≤ 10 := by
  refine ⟨?_, by decide⟩
  rw [CongestionController.reject_f08_unparsed_ok _ _ (le_refl 0)]
  simp only [Except.ok.injEq, CongestionController.mk.injEq, Option.map_some,
    ratToU64]
  norm_num [U64MAX]
  decide

/-- Claim C4 (amended): `max_packet_amount` is absent at construction, and —
provided `decrease_factor ≥ 1`, as in every intended configuration — once it
is `some v` every successful operation leaves it `some v'` with `v' ≤ v`.
(For `decrease_factor < 1` the unparseable-F08 fallback divides the cap by a
number below one and can increase it.) -/
theorem C4_cap_monotone :
    (∀ (sa ia : ℕ) (df : ℚ),
      (CongestionController.new sa ia df).max_packet_amount = none) ∧
    (∀ (c : CongestionController) (op : Op) (c' : CongestionController) (v : ℕ),
      1 ≤ c.decrease_factor → step c op = Except.ok c' →
      c.max_packet_amount = some v →
      ∃ v', c'.max_packet_amount = some v' ∧ v' ≤ v) :=
  ⟨fun _ _ _ => rfl, step_ok_cap_mono⟩

/-- Witness for C4 (amended): a fresh controller has no cap; a `prepare 0`
step on a controller with cap 7 and factor 2 keeps the cap at most 7. -/
theorem C4_cap_monotone_witness :
    (CongestionController.new 1000 1000 2).max_packet_amount = none ∧
    ∃ v', (⟨CongestionState.slowStart, 1, 2, some 7, 0, 10⟩ :
      CongestionController).max_packet_amount = some v' ∧ v' ≤ 7 :=
  ⟨C4_cap_monotone.1 1000 1000 2,
   C4_cap_monotone.2 (⟨CongestionState.slowStart, 1, 2, some 7, 0, 10⟩ :
      CongestionController) (Op.prepare 0)
     (⟨CongestionState.slowStart, 1, 2, some 7, 0, 10⟩ : CongestionController)
     7 (by norm_num) rfl rfl⟩

/-- Claim C9 counterexample: the caller protocol (every resolve matches a
prior prepare) does not rule out overflow — two prepares of `u64::MAX` each,
with nothing resolved in between, overflow the in-flight counter. -/
theorem C9_counterexample :
    run (CongestionController.new 1000 1000 2)
      [Op.prepare U64MAX, Op.prepare U64MAX] =
      Except.error Fault.overflow := by
  rfl

/-- Claim C9 (amended): under the caller protocol the checked subtractions
in `fulfill`/`reject` cannot underflow — `fulfill` always succeeds and
`reject` never reports an underflow fault when the resolved amount is within
the booked in-flight amount — and `prepare` succeeds whenever the new total
stays within `u64` range; but the protocol alone does not bound `prepare`'s
addition nor the F08 product `prepare_amount * max_amount`, which can still
overflow (see the counterexample). -/
theorem C9_no_underflow_under_protocol :
    (∀ (c : CongestionController) (pa : ℕ), pa ≤ c.amount_in_flight →
      ∃ c', c.fulfill pa = Except.ok c') ∧
    (∀ (c : CongestionController) (pa : ℕ) (r : RejectSignal),
      pa ≤ c.amount_in_flight →
      c.reject pa r ≠ Except.error Fault.underflow) ∧
    (∀ (c : CongestionController) (x : ℕ),
      c.amount_in_flight + x ≤ U64MAX →
      ∃ c', c.prepare x = Except.ok c') := by
  refine ⟨?_, ?_, ?_⟩
  · intro c pa h
    exact ⟨_, CongestionController.fulfill_ok c pa h⟩
  · intro c pa r h
    rcases r with ⟨code, data⟩
    cases code with
    | t04InsufficientLiquidity => simp [CongestionController.reject, h]
    | otherCode n => simp [CongestionController.reject, h]
    | f08AmountTooLarge =>
      cases data with
      | none =>
        rcases hm : c.max_packet_amount with _ | mpa <;>
          simp [CongestionController.reject, h, hm]
      | some d =>
        by_cases hov : pa * d.max_amount ≤ U64MAX
        · by_cases har : d.amount_received = 0
          · simp [CongestionController.reject, h, hov, har]
          · rcases hm : c.max_packet_amount with _ | mpa <;>
              simp [CongestionController.reject, h, hov, har, hm]
        · simp [CongestionController.reject, h, hov]
  · intro c x hx
    by_cases hpos : 0 < x
    · exact ⟨_, CongestionController.prepare_ok_pos c x hpos hx⟩
    · have hz : x = 0 := by omega
      rw [hz]
      exact ⟨c, CongestionController.prepare_zero c⟩

/-- Witness for C9 (amended): resolving 1 of 1 in flight by fulfill and by a
T04 reject, and preparing 0 more. -/
theorem C9_no_underflow_under_protocol_witness :
    (∃ c', (⟨CongestionState.slowStart, 1, 2, none, 1, 10⟩ :
      CongestionController).fulfill 1 = Except.ok c') ∧
    ((⟨CongestionState.slowStart, 1, 2, none, 1, 10⟩ :
      CongestionController).reject 1 ⟨ErrorCode.t04InsufficientLiquidity, none⟩ ≠
      Except.error Fault.underflow) ∧
    (∃ c', (⟨CongestionState.slowStart, 1, 2, none, 1, 10⟩ :
      CongestionController).prepare 0 = Except.ok c') :=
  ⟨C9_no_underflow_under_protocol.1 _ 1 (by decide),
   C9_no_underflow_under_protocol.2.1 _ 1 _ (by decide),
   C9_no_underflow_under_protocol.2.2 _ 0 (by norm_num [U64MAX])⟩
